import Mathlib

/-!
Verification of the detection-normalization and overlay-rendering subsystem
of the thermal-analysis dashboard (source: `FrontEnd/ImageOverlay.tsx`,
`FrontEnd/DebugPanel.tsx` containing the `App` component, and
`FrontEnd/src/components/UploadZone.tsx`).

Modelling conventions for the shallow embedding:
* JavaScript numbers are modelled as rationals (`ℚ`); the code under
  verification only multiplies, divides and compares them.
* A JavaScript value that may be `undefined`/`null` is modelled as an
  `Option`; `Option.none` is the nullish case.
* A field that may hold a non-array value is modelled as `none` exactly when
  the code's `Array.isArray` test rejects it, since every such field is only
  ever consumed under an `Array.isArray` guard.
* JavaScript array destructuring `[x, y, w, h] = a` yields `undefined` for
  positions past the end of `a`; this is modelled by `List.get?`.
-/

namespace ThermalAnalyzer

/-- JS nullish coalescing `a ?? b`: `b` only when `a` is null/undefined. -/
def jsNullish {α : Type} (a b : Option α) : Option α :=
  match a with
  | some v => some v
  | none => b

/-- One raw detection record, mirroring the `Detection` interface of
`ImageOverlay.tsx` (lines 12-27): three possible positional-array box
encodings, scalar box fields with `w`/`h` abbreviations, two label keys plus
`label`, and two confidence keys. -/
structure Detection where
  bbox : Option (List ℚ)
  bounding_box : Option (List ℚ)
  coordinates : Option (List ℚ)
  x : Option ℚ
  y : Option ℚ
  width : Option ℚ
  height : Option ℚ
  w : Option ℚ
  h : Option ℚ
  label : Option String
  «class» : Option String
  class_name : Option String
  confidence : Option ℚ
  score : Option ℚ
deriving DecidableEq

/-- The canonical box produced by normalization, mirroring the `BoundingBox`
interface of `ImageOverlay.tsx` (lines 3-10). The numeric components are
`Option ℚ` because at runtime a destructured short array leaves them
`undefined` even though the TypeScript type says `number`. -/
structure BoundingBox where
  x : Option ℚ
  y : Option ℚ
  width : Option ℚ
  height : Option ℚ
  label : Option String
  confidence : Option ℚ
deriving DecidableEq

/-- The body of the `detections.map` callback inside `normalizeBoundingBoxes`
(`ImageOverlay.tsx` lines 71-96): try `bbox`, then `bounding_box`, then
`coordinates` as positional `[x, y, width, height]` arrays; if none is an
array, fall back to the scalar fields with `?? 0` / `?? w ?? 0` / `?? h ?? 0`
defaults; label and confidence are nullish-coalescing chains. -/
def normalizeDetection (d : Detection) : BoundingBox :=
  let xywh : Option ℚ × Option ℚ × Option ℚ × Option ℚ :=
    match d.bbox with
    | some a => (a.get? 0, a.get? 1, a.get? 2, a.get? 3)
    | none =>
      match d.bounding_box with
      | some a => (a.get? 0, a.get? 1, a.get? 2, a.get? 3)
      | none =>
        match d.coordinates with
        | some a => (a.get? 0, a.get? 1, a.get? 2, a.get? 3)
        | none =>
          (some (d.x.getD 0), some (d.y.getD 0),
           some (d.width.getD (d.w.getD 0)), some (d.height.getD (d.h.getD 0)))
  { x := xywh.1
    y := xywh.2.1
    width := xywh.2.2.1
    height := xywh.2.2.2
    label := jsNullish d.label (jsNullish d.«class» d.class_name)
    confidence := jsNullish d.confidence d.score }

/-- `normalizeBoundingBoxes` (`ImageOverlay.tsx` line 70): maps the
per-record normalization over the detection list. -/
def normalizeBoundingBoxes (detections : List Detection) : List BoundingBox :=
  detections.map normalizeDetection

/-- The four positional box components of a canonical box, for stating
box-extraction facts independently of label/confidence. -/
def boxFields (b : BoundingBox) : Option ℚ × Option ℚ × Option ℚ × Option ℚ :=
  (b.x, b.y, b.width, b.height)

/-- Claim C1: for every raw detection record, normalize extracts the box by
trying array fields in the fixed order `bbox`, then `bounding_box`, then
`coordinates`, reading the first array found positionally as
`[x, y, width, height]` regardless of any other fields present; only if none
of the three array fields exists does it read the scalar fields `x`
(default 0), `y` (default 0), `width` (default `w`, else 0), `height`
(default `h`, else 0) — so no record is ever read partly from an array form
and partly from scalar fields. The four conjuncts cover every record shape,
and in each the box comes wholly from one source. -/
theorem normalize_box_precedence (a : List ℚ) (bb cc : Option (List ℚ))
    (sx sy sw sh sww shh : Option ℚ) (lab cls cn : Option String)
    (conf sc : Option ℚ) :
    (boxFields (normalizeDetection
        { bbox := some a, bounding_box := bb, coordinates := cc,
          x := sx, y := sy, width := sw, height := sh, w := sww, h := shh,
          label := lab, «class» := cls, class_name := cn,
          confidence := conf, score := sc }) =
      (a.get? 0, a.get? 1, a.get? 2, a.get? 3)) ∧
    (boxFields (normalizeDetection
        { bbox := none, bounding_box := some a, coordinates := cc,
          x := sx, y := sy, width := sw, height := sh, w := sww, h := shh,
          label := lab, «class» := cls, class_name := cn,
          confidence := conf, score := sc }) =
      (a.get? 0, a.get? 1, a.get? 2, a.get? 3)) ∧
    (boxFields (normalizeDetection
        { bbox := none, bounding_box := none, coordinates := some a,
          x := sx, y := sy, width := sw, height := sh, w := sww, h := shh,
          label := lab, «class» := cls, class_name := cn,
          confidence := conf, score := sc }) =
      (a.get? 0, a.get? 1, a.get? 2, a.get? 3)) ∧
    (boxFields (normalizeDetection
        { bbox := none, bounding_box := none, coordinates := none,
          x := sx, y := sy, width := sw, height := sh, w := sww, h := shh,
          label := lab, «class» := cls, class_name := cn,
          confidence := conf, score := sc }) =
      (some (sx.getD 0), some (sy.getD 0),
       some (sw.getD (sww.getD 0)), some (sh.getD (shh.getD 0)))) :=
  ⟨rfl, rfl, rfl, rfl⟩

/-- Claim C5: normalize sets the canonical label to the first present of
`label`, `class`, `class_name` (absent if none) and the canonical confidence
to the first present of `confidence`, `score` (absent if neither); in
particular a record with both `class` and `class_name` but no `label` gets
the `class` value as its label. -/
theorem normalize_label_confidence_precedence (s s2 : String)
    (ba bb cc : Option (List ℚ)) (sx sy sw sh sww shh : Option ℚ)
    (cn : Option String) (q : ℚ) (sc : Option ℚ) :
    ((normalizeDetection
        { bbox := ba, bounding_box := bb, coordinates := cc,
          x := sx, y := sy, width := sw, height := sh, w := sww, h := shh,
          label := some s, «class» := some s2, class_name := cn,
          confidence := none, score := sc }).label = some s) ∧
    ((normalizeDetection
        { bbox := ba, bounding_box := bb, coordinates := cc,
          x := sx, y := sy, width := sw, height := sh, w := sww, h := shh,
          label := none, «class» := some s, class_name := cn,
          confidence := none, score := sc }).label = some s) ∧
    ((normalizeDetection
        { bbox := ba, bounding_box := bb, coordinates := cc,
          x := sx, y := sy, width := sw, height := sh, w := sww, h := shh,
          label := none, «class» := none, class_name := cn,
          confidence := none, score := sc }).label = cn) ∧
    ((normalizeDetection
        { bbox := ba, bounding_box := bb, coordinates := cc,
          x := sx, y := sy, width := sw, height := sh, w := sww, h := shh,
          label := none, «class» := some s, class_name := some s2,
          confidence := none, score := sc }).label = some s) ∧
    ((normalizeDetection
        { bbox := ba, bounding_box := bb, coordinates := cc,
          x := sx, y := sy, width := sw, height := sh, w := sww, h := shh,
          label := none, «class» := none, class_name := cn,
          confidence := some q, score := sc }).confidence = some q) ∧
    ((normalizeDetection
        { bbox := ba, bounding_box := bb, coordinates := cc,
          x := sx, y := sy, width := sw, height := sh, w := sww, h := shh,
          label := none, «class» := none, class_name := cn,
          confidence := none, score := sc }).confidence = sc) := by
  refine ⟨rfl, rfl, ?_, rfl, ?_, ?_⟩ <;>
    cases ba <;> cases bb <;> cases cc <;> rfl

/-- Claim C9: for every raw detection record whose `bbox` field is an array
with fewer than 4 elements, normalize leaves the missing canonical
components undefined (`none`) rather than defaulting them to 0, and any
scalar `x`, `y`, `width`, `height`, `w`, `h` fields also present on the
record are ignored. Stated via the general positional reading
`List.get?` (which is `none` at and past the array's length), plus the
empty-array and one-element instances with every scalar field present. -/
theorem normalize_short_bbox (sx0 sy0 sw0 sh0 sww0 shh0 q : ℚ)
    (lab cls cn : Option String) (conf sc : Option ℚ) :
    (∀ a : List ℚ, boxFields (normalizeDetection
        { bbox := some a, bounding_box := none, coordinates := none,
          x := some sx0, y := some sy0, width := some sw0, height := some sh0,
          w := some sww0, h := some shh0,
          label := lab, «class» := cls, class_name := cn,
          confidence := conf, score := sc }) =
      (a.get? 0, a.get? 1, a.get? 2, a.get? 3)) ∧
    (boxFields (normalizeDetection
        { bbox := some ([] : List ℚ), bounding_box := none, coordinates := none,
          x := some sx0, y := some sy0, width := some sw0, height := some sh0,
          w := some sww0, h := some shh0,
          label := lab, «class» := cls, class_name := cn,
          confidence := conf, score := sc }) =
      (none, none, none, none)) ∧
    (boxFields (normalizeDetection
        { bbox := some [q], bounding_box := none, coordinates := none,
          x := some sx0, y := some sy0, width := some sw0, height := some sh0,
          w := some sww0, h := some shh0,
          label := lab, «class» := cls, class_name := cn,
          confidence := conf, score := sc }) =
      (some q, none, none, none)) :=
  ⟨fun _ => rfl, rfl, rfl⟩

/-- An analysis result payload as consumed by `getDetections` in
`DebugPanel.tsx` (the `App` component): either a JSON object — whose
`detections`, `predictions`, `results`, `boxes` fields are `some` exactly
when present and passing the code's `Array.isArray` test — or the payload is
itself an array (a JSON array carries no named fields, so the four field
probes are `none` on it). -/
inductive AnalysisResponse where
  | obj (detections predictions results boxes : Option (List Detection))
  | arr (elems : List Detection)
deriving DecidableEq

/-- `getDetections` (`DebugPanel.tsx` `App` component, lines 163-173):
`null` response gives `null`; otherwise the first of
`response.detections`, `response.predictions`, `response.results`,
`response.boxes` that is an array wins; else the payload itself if it is an
array; else `null`. -/
def getDetections (response : Option AnalysisResponse) : Option (List Detection) :=
  match response with
  | none => none
  | some (.obj det pred res box) => jsNullish det (jsNullish pred (jsNullish res box))
  | some (.arr elems) => some elems

/-- Claim C2: `getDetections` returns the first array found among the fields
`detections`, `predictions`, `results`, `boxes`, in that priority order;
else, if the whole payload is itself an array, it returns the payload; else
it returns absent (not an error). In particular, when both a `detections`
array and a `predictions` array are present, the `detections` array is
returned (last conjunct). -/
theorem getDetections_precedence (det pred res box : List Detection)
    (p r b : Option (List Detection)) (elems : List Detection) :
    (getDetections (some (.obj (some det) p r b)) = some det) ∧
    (getDetections (some (.obj none (some pred) r b)) = some pred) ∧
    (getDetections (some (.obj none none (some res) b)) = some res) ∧
    (getDetections (some (.obj none none none (some box))) = some box) ∧
    (getDetections (some (.obj none none none none)) = none) ∧
    (getDetections (some (.arr elems)) = some elems) ∧
    (getDetections none = none) ∧
    (getDetections (some (.obj (some det) (some pred) r b)) = some det) :=
  ⟨rfl, rfl, rfl, rfl, rfl, rfl, rfl, rfl⟩

/-- The two dimension pairs used by the overlay: `naturalDimensions`
(the loaded image's natural pixel size) and `imageDimensions` (the
container's rendered layout size), as read in `ImageOverlay.tsx`.
The spec calls this value ImageGeometry. -/
structure ImageGeometry where
  naturalWidth : ℚ
  naturalHeight : ℚ
  renderedWidth : ℚ
  renderedHeight : ℚ
deriving DecidableEq

/-- JS `a || b` on numbers: `b` exactly when `a` is falsy, i.e. zero
(NaN, which is also falsy, does not exist in ℚ and is not modelled). -/
def jsOrNum (a b : ℚ) : ℚ := if a = 0 then b else a

/-- `scaleX` (`ImageOverlay.tsx` line 100):
`imageDimensions.width / (naturalDimensions.width || 1)`. -/
def scaleX (g : ImageGeometry) : ℚ := g.renderedWidth / jsOrNum g.naturalWidth 1

/-- `scaleY` (`ImageOverlay.tsx` line 101):
`imageDimensions.height / (naturalDimensions.height || 1)`. -/
def scaleY (g : ImageGeometry) : ℚ := g.renderedHeight / jsOrNum g.naturalHeight 1

/-- The per-box scaling of `ImageOverlay.tsx` lines 124-127
(`scaledX = box.x * scaleX`, `scaledY = box.y * scaleY`,
`scaledWidth = box.width * scaleX`, `scaledHeight = box.height * scaleY`),
packaged as the spec's CoordinateProjector. Defined components scale
exactly as in the source; an undefined component stays undefined (in JS it
would scale to NaN — no claim exercises that path). -/
def project (b : BoundingBox) (g : ImageGeometry) : BoundingBox :=
  { b with
    x := b.x.map (fun v => v * scaleX g)
    y := b.y.map (fun v => v * scaleY g)
    width := b.width.map (fun v => v * scaleX g)
    height := b.height.map (fun v => v * scaleY g) }

/-- Claim C3: for every canonical box and every geometry with
`naturalWidth > 0` and `naturalHeight > 0`, `project` returns a box whose
`x` and `width` equal the inputs multiplied by
`scaleX = renderedWidth / naturalWidth`, and whose `y` and `height` equal
the inputs multiplied by `scaleY = renderedHeight / naturalHeight`. -/
theorem project_scales (bx b2 bw bh : ℚ) (lab : Option String)
    (conf : Option ℚ) (g : ImageGeometry)
    (hW : 0 < g.naturalWidth) (hH : 0 < g.naturalHeight) :
    project ⟨some bx, some b2, some bw, some bh, lab, conf⟩ g =
      ⟨some (bx * (g.renderedWidth / g.naturalWidth)),
       some (b2 * (g.renderedHeight / g.naturalHeight)),
       some (bw * (g.renderedWidth / g.naturalWidth)),
       some (bh * (g.renderedHeight / g.naturalHeight)), lab, conf⟩ := by
  simp [project, scaleX, scaleY, jsOrNum, hW.ne', hH.ne']

/-- Witness for C3, the spec's own example: scaleX = 2, scaleY = 3
(natural 10×5 rendered as 20×15) sends box {x:10, y:5, width:4, height:2}
to {x:20, y:15, width:8, height:6}. -/
theorem project_scales_witness :
    (0:ℚ) < 10 ∧ (0:ℚ) < 5 ∧
    project ⟨some 10, some 5, some 4, some 2, none, none⟩ ⟨10, 5, 20, 15⟩ =
      ⟨some 20, some 15, some 8, some 6, none, none⟩ := by
  refine ⟨by norm_num, by norm_num, ?_⟩
  rw [project_scales 10 5 4 2 none none ⟨10, 5, 20, 15⟩ (by norm_num) (by norm_num)]
  norm_num

/-- Counterexample to claim C4 as stated: the claim says that with
`naturalWidth = 0` the horizontal scale factor `scaleX` resolves to 1, for
every geometry. In the code the guard `(naturalDimensions.width || 1)`
replaces only the divisor by 1, so `scaleX` equals `renderedWidth`: with
`naturalWidth = 0` and `renderedWidth = 2`, `scaleX` is 2, not 1. -/
theorem scaleX_zero_natural_counterexample :
    scaleX ⟨0, 7, 2, 9⟩ ≠ 1 := by
  simp [scaleX, jsOrNum]

/-- Claim C4 (amended): for every geometry with `naturalWidth = 0`, no
division by zero is performed — the divisor `(naturalWidth || 1)` resolves
to 1 (indeed the divisor is nonzero for every geometry) — and `scaleX`
resolves to `renderedWidth / 1 = renderedWidth`; analogously for
`naturalHeight = 0` and `scaleY`. -/
theorem scaleX_zero_natural (g g2 : ImageGeometry)
    (hW : g.naturalWidth = 0) (hH : g2.naturalHeight = 0) :
    jsOrNum g.naturalWidth 1 = 1 ∧ scaleX g = g.renderedWidth ∧
    jsOrNum g2.naturalHeight 1 = 1 ∧ scaleY g2 = g2.renderedHeight ∧
    (∀ g3 : ImageGeometry, jsOrNum g3.naturalWidth 1 ≠ 0 ∧
      jsOrNum g3.naturalHeight 1 ≠ 0) := by
  refine ⟨by simp [jsOrNum, hW], by simp [scaleX, jsOrNum, hW], ?_, ?_, ?_⟩
  · simp [jsOrNum, hH]
  · simp [scaleY, jsOrNum, hH]
  · intro g3
    constructor <;> · unfold jsOrNum; split <;> simp_all

/-- Witness for the amended C4 at a concrete geometry with both natural
dimensions zero and rendered size 20×15. -/
theorem scaleX_zero_natural_witness :
    jsOrNum (ImageGeometry.naturalWidth ⟨0, 0, 20, 15⟩) 1 = 1 ∧
    scaleX ⟨0, 0, 20, 15⟩ = 20 := by
  have h := scaleX_zero_natural ⟨0, 0, 20, 15⟩ ⟨0, 0, 20, 15⟩ rfl rfl
  exact ⟨h.1, h.2.1⟩

/-- `COLORS` (`ImageOverlay.tsx` lines 35-41): the fixed ordered palette of
five colors used for detection boxes. -/
def COLORS : List String :=
  ["hsl(25, 100%, 50%)",
   "hsl(142, 76%, 45%)",
   "hsl(200, 100%, 50%)",
   "hsl(280, 100%, 60%)",
   "hsl(45, 100%, 50%)"]

/-- `COLORS[index % COLORS.length]` (`ImageOverlay.tsx` line 123). The index
is always reduced modulo the palette length, so the `getD` default is never
reached. -/
def colorOf (index : Nat) : String := COLORS.getD (index % COLORS.length) ""

/-- JS `toFixed(0)` applied to a rational: round to the nearest integer,
ties toward the larger value, exactly the ECMAScript `toFixed` tie rule
("if there are two such n, pick the larger n"), which is Mathlib's
`round`. -/
def toFixed0 (q : ℚ) : ℤ := round q

/-- The percentage suffix of a label chip
(`ImageOverlay.tsx` line 189): a space, `(confidence * 100).toFixed(0)`,
and a percent sign. -/
def percentText (c : ℚ) : String := " " ++ toString (toFixed0 (c * 100)) ++ "%"

/-- The label chip of one rendered box (`ImageOverlay.tsx` lines 170-192):
rendered only when `box.label || box.confidence !== undefined` is truthy
(a present empty-string label is falsy); its text is
`box.label ?? "Detection " + (index+1)` followed by the percentage suffix
exactly when confidence is defined (the JSX `&&` contributes nothing when
confidence is undefined). -/
def chipText (index : Nat) (box : BoundingBox) : Option String :=
  if (box.label.getD "" != "") || box.confidence.isSome then
    some ((box.label.getD ("Detection " ++ toString (index + 1))) ++
      (match box.confidence with
       | some c => percentText c
       | none => ""))
  else
    none

/-- The observable content of one rendered overlay element that the claims
are about: its stroke/fill color and its optional label-chip text (the
rectangle and corner-accent geometry is decorative SVG). -/
structure OverlayElem where
  color : String
  chip : Option String
deriving DecidableEq

/-- The `boxes.map((box, index) => ...)` render pass of `ImageOverlay.tsx`
lines 122-195, restricted to the color and chip content of each element. -/
def renderOverlay (boxes : List BoundingBox) : List OverlayElem :=
  boxes.mapIdx fun index box => { color := colorOf index, chip := chipText index box }

/-- Claim C6: the render color assigned to the box at 0-based index `i` is
`palette[i mod 5]` from a fixed ordered palette of 5 distinct colors; hence
rendering is deterministic (two renders of the same list assign identical
colors per index) and in any list of 7 or more boxes, indices 0 and 5
receive the same color. -/
theorem renderOverlay_colors (boxes boxes2 : List BoundingBox) (i : Nat) :
    COLORS.length = 5 ∧ COLORS.Nodup ∧
    colorOf i = COLORS.getD (i % 5) "" ∧
    ((renderOverlay boxes)[i]?.map OverlayElem.color =
      boxes[i]?.map fun _ => COLORS.getD (i % 5) "") ∧
    (boxes = boxes2 → renderOverlay boxes = renderOverlay boxes2) ∧
    (7 ≤ boxes.length →
      (renderOverlay boxes)[0]?.map OverlayElem.color = some (COLORS.getD 0 "") ∧
      (renderOverlay boxes)[5]?.map OverlayElem.color = some (COLORS.getD 0 "")) := by
  have hlen : COLORS.length = 5 := by decide
  refine ⟨hlen, by decide, by rw [colorOf, hlen], ?_, fun h => by rw [h], fun h7 => ?_⟩
  · simp [renderOverlay, List.getElem?_mapIdx, colorOf, hlen]
    cases boxes[i]? <;> rfl
  · have h0 : boxes[0]? = some (boxes.get ⟨0, by omega⟩) := List.getElem?_eq_getElem (by omega)
    have h5 : boxes[5]? = some (boxes.get ⟨5, by omega⟩) := List.getElem?_eq_getElem (by omega)
    constructor
    · simp [renderOverlay, List.getElem?_mapIdx, h0, colorOf, hlen]
    · simp [renderOverlay, List.getElem?_mapIdx, h5, colorOf, hlen]

/-- Witness for C6 on a concrete list of 7 boxes: indices 0 and 5 both get
the first palette color, and a repeated render agrees. -/
theorem renderOverlay_colors_witness :
    (renderOverlay (List.replicate 7 ⟨none, none, none, none, none, none⟩))[0]?.map
        OverlayElem.color = some "hsl(25, 100%, 50%)" ∧
    (renderOverlay (List.replicate 7 ⟨none, none, none, none, none, none⟩))[5]?.map
        OverlayElem.color = some "hsl(25, 100%, 50%)" := by
  have h := (renderOverlay_colors
      (List.replicate 7 ⟨none, none, none, none, none, none⟩)
      (List.replicate 7 ⟨none, none, none, none, none, none⟩) 0).2.2.2.2.2
      (by decide)
  exact ⟨h.1, h.2⟩

/-- Claim C10: the overlay renders a label chip for a box exactly when its
label is a non-empty string or its confidence is defined; a box with
confidence exactly 0 and no label still gets a chip reading
"Detection {i+1} 0%", while a box whose label is the empty string and whose
confidence is absent gets no chip at all. -/
theorem chipText_condition (i : Nat) (cx cy cw ch : Option ℚ)
    (lab : Option String) (conf : Option ℚ) :
    (chipText i ⟨cx, cy, cw, ch, none, some 0⟩ =
      some ("Detection " ++ toString (i + 1) ++ " 0%")) ∧
    (chipText i ⟨cx, cy, cw, ch, some "", none⟩ = none) ∧
    (chipText i ⟨cx, cy, cw, ch, lab, conf⟩ ≠ none ↔
      ((∃ s, lab = some s ∧ s ≠ "") ∨ conf ≠ none)) := by
  have hpct : percentText 0 = " 0%" := by
    have h0 : toFixed0 ((0:ℚ) * 100) = 0 := by simp [toFixed0]
    rw [percentText, h0]
    rfl
  refine ⟨by simp [chipText, hpct], by simp [chipText], ?_⟩
  cases lab with
  | none => cases conf <;> simp [chipText]
  | some s =>
    cases conf with
    | none =>
      by_cases hs : s = "" <;> simp [chipText, hs]
    | some c =>
      simp only [chipText, Option.isSome_some, Bool.or_true, if_pos rfl]
      by_cases hs : s = "" <;> simp [hs]

/-- The `App` component's state (`DebugPanel.tsx`): `imageFile`,
`previewUrl`, `isAnalyzing`, `response`, `error`. Files and object URLs are
identified by numeric ids. -/
structure AppState where
  imageFile : Option Nat
  previewUrl : Option Nat
  isAnalyzing : Bool
  response : Option AnalysisResponse
  error : Option String
deriving DecidableEq

/-- The spec's PipelineState, derived from the component state the way the
UI consumes it: `isAnalyzing` means Uploading; otherwise a stored error
means Failed, a stored response means Succeeded, and neither means Idle. -/
inductive PipelineState where
  | Idle
  | Uploading
  | Succeeded (result : AnalysisResponse)
  | Failed (message : String)
deriving DecidableEq

/-- Projection from component state to the spec's pipeline state. -/
def pipelineState (s : AppState) : PipelineState :=
  if s.isAnalyzing then .Uploading
  else
    match s.error with
    | some m => .Failed m
    | none =>
      match s.response with
      | some r => .Succeeded r
      | none => .Idle

/-- Outcome of `res.json()` on a success-status response: the parsed
payload, or the message of the exception thrown on a malformed body. -/
inductive ParseOutcome where
  | ok (value : AnalysisResponse)
  | fail (message : String)
deriving DecidableEq

/-- Outcome of the `fetch` in `handleImageUpload`: a network-level failure
(the surfaced message is `err.message`, or the generic fallback for a
non-`Error` throw), or an HTTP response with a status code, a body text, and
the body's parse outcome. `res.ok` is true exactly for statuses 200-299. -/
inductive FetchResult where
  | networkFailure (message : String)
  | httpResponse (status : Nat) (body : String) (json : ParseOutcome)
deriving DecidableEq

/-- The browser's object-URL table: which preview URLs have been created by
`URL.createObjectURL` and which have been released by `URL.revokeObjectURL`.
A created URL whose id is in neither `revoked` nor currently displayed is a
leaked resource. -/
structure UrlTable where
  created : List Nat
  revoked : List Nat
deriving DecidableEq

/-- `URL.createObjectURL`: registers a fresh object URL. -/
def createObjectURL (t : UrlTable) (url : Nat) : UrlTable :=
  { t with created := url :: t.created }

/-- `URL.revokeObjectURL`: releases an object URL. -/
def revokeObjectURL (t : UrlTable) (url : Nat) : UrlTable :=
  { t with revoked := url :: t.revoked }

/-- The synchronous prefix of `handleImageUpload` (`DebugPanel.tsx` lines
122-127): store the file, replace `previewUrl` with a freshly created object
URL — without revoking any previously held one — clear error and response,
and enter the analyzing state. -/
def handleImageUploadStart (t : UrlTable) (file url : Nat) :
    AppState × UrlTable :=
  ({ imageFile := some file
     previewUrl := some url
     isAnalyzing := true
     response := none
     error := none },
   createObjectURL t url)

/-- The failure message built at `DebugPanel.tsx` line 140:
`` `HTTP ${res.status}: ${errorText}` ``. -/
def httpErrorMessage (status : Nat) (body : String) : String :=
  "HTTP " ++ toString status ++ ": " ++ body

/-- The completion of `handleImageUpload` (`DebugPanel.tsx` lines 132-149):
on a non-ok status the thrown `HTTP {status}: {body}` error is caught and
stored in `error`; on an ok status the parsed payload is stored in
`response` (a parse failure is caught like any other error); a network
failure stores its message; the `finally` clause always clears
`isAnalyzing`. -/
def handleImageUploadFinish (s : AppState) (r : FetchResult) : AppState :=
  match r with
  | .networkFailure msg => { s with error := some msg, isAnalyzing := false }
  | .httpResponse status body json =>
    if 200 ≤ status ∧ status ≤ 299 then
      match json with
      | .ok data => { s with response := some data, isAnalyzing := false }
      | .fail msg => { s with error := some msg, isAnalyzing := false }
    else
      { s with error := some (httpErrorMessage status body), isAnalyzing := false }

/-- `handleClear` (`DebugPanel.tsx` lines 152-160): revoke the held preview
URL if any, then null out file, preview, response and error. -/
def handleClear (s : AppState) (t : UrlTable) : AppState × UrlTable :=
  ({ s with imageFile := none, previewUrl := none, response := none, error := none },
   match s.previewUrl with
   | some url => revokeObjectURL t url
   | none => t)

/-- The initial component state: everything null, not analyzing. -/
def initialAppState : AppState :=
  { imageFile := none, previewUrl := none, isAnalyzing := false,
    response := none, error := none }

/-- Claim C7: for every HTTP response with a non-success status, the upload
completion transitions the pipeline to Failed — never Succeeded, even when a
body is present — and the stored failure message is built from the status
code and the response body text as `HTTP {status}: {body}`. -/
theorem httpFailure_yields_failed (s : AppState) (status : Nat) (body : String)
    (json : ParseOutcome) (hs : status < 200 ∨ 299 < status) :
    handleImageUploadFinish s (.httpResponse status body json) =
      { s with error := some (httpErrorMessage status body), isAnalyzing := false } ∧
    pipelineState (handleImageUploadFinish s (.httpResponse status body json)) =
      .Failed (httpErrorMessage status body) ∧
    ∀ r : AnalysisResponse,
      pipelineState (handleImageUploadFinish s (.httpResponse status body json)) ≠
        .Succeeded r := by
  have hok : ¬ (200 ≤ status ∧ status ≤ 299) := by omega
  have h1 : handleImageUploadFinish s (.httpResponse status body json) =
      { s with error := some (httpErrorMessage status body), isAnalyzing := false } := by
    simp [handleImageUploadFinish, hok]
  refine ⟨h1, ?_, ?_⟩
  · rw [h1]; rfl
  · intro r
    rw [h1]
    simp [pipelineState]

/-- Witness for C7, the spec's scenario: a submit mid-flight receives an
HTTP 500 with body "model error"; the pipeline ends Failed with a message
containing both "500" and "model error". -/
theorem httpFailure_yields_failed_witness :
    pipelineState (handleImageUploadFinish
        ⟨some 1, some 101, true, none, none⟩
        (.httpResponse 500 "model error" (.fail "x"))) =
      .Failed "HTTP 500: model error" ∧
    ("500".data <:+: ("HTTP 500: model error").data) ∧
    ("model error".data <:+: ("HTTP 500: model error").data) := by
  have h := httpFailure_yields_failed ⟨some 1, some 101, true, none, none⟩
      500 "model error" (.fail "x") (by omega)
  exact ⟨by rw [h.2.1]; rfl, by decide, by decide⟩

/-- A trace exhibiting the preview-resource leak (claim C8's failing input):
from the initial state, submit image 1 (creating preview URL 101), let the
upload fail with an HTTP 500 — a terminal Failed state, from which the spec
allows a new submit — then submit image 2 (creating preview URL 102).
`handleImageUploadStart` replaces `previewUrl` without revoking. -/
def leakTraceMid : AppState × UrlTable :=
  let step1 := handleImageUploadStart ⟨[], []⟩ 1 101
  (handleImageUploadFinish step1.1 (.httpResponse 500 "err" (.fail "x")), step1.2)

/-- Continuation of `leakTraceMid`: the second submit. -/
def leakTrace : AppState × UrlTable :=
  handleImageUploadStart leakTraceMid.2 2 102

/-- Claim C8 fails on the code: after the second submit of `leakTrace`, URL
101 has been superseded (the displayed preview is 102) yet was never
revoked, so a non-displayed preview reference remains unreleased —
contradicting "the preview resource is explicitly released whenever it is
superseded" and the equivalent invariant "at most the currently displayed
preview reference remains unreleased". (`handleClear` does release, so the
claim's "cleared" half is the code's only release site.) -/
theorem previewUrl_leak_on_supersede :
    (pipelineState leakTraceMid.1 = .Failed "HTTP 500: err") ∧
    (leakTraceMid.1.previewUrl = some 101) ∧
    (leakTrace.1.previewUrl = some 102) ∧
    101 ∈ leakTrace.2.created ∧
    101 ∉ leakTrace.2.revoked ∧
    leakTrace.1.previewUrl ≠ some 101 ∧
    leakTrace.2.revoked = [] := by decide

end ThermalAnalyzer
